import Mathlib

/-!
Verification of the picoclaw dispatch/scheduling substrate against its
specification.  Definitions shallowly embed the Go sources:
`pkg/heartbeat/service.go`, `pkg/channels/line.go`, and (where the Go
implementation is not in the tree) models built from the specification
text (`pkg/state` routing-state store, the turn serializer).
-/

namespace Picoclaw

/-! ## Heartbeat service (pkg/heartbeat/service.go) -/

/-- Minimum heartbeat interval in minutes (service.go line 22). -/
def minIntervalMinutes : Int := 5

/-- Default heartbeat interval in minutes (service.go line 23). -/
def defaultIntervalMinutes : Int := 30

/-- The silence sentinel string (service.go line 24). -/
def heartbeatOK : String := "HEARTBEAT_OK"

/-- Effective interval in minutes as computed by `NewHeartbeatService`
(service.go lines 63-71): values below the minimum and nonzero are
clamped up to the minimum, and zero selects the default. -/
def effectiveIntervalMinutes (intervalMinutes : Int) : Int :=
  let clamped :=
    if intervalMinutes < minIntervalMinutes ∧ intervalMinutes ≠ 0 then
      minIntervalMinutes
    else intervalMinutes
  if clamped = 0 then defaultIntervalMinutes else clamped

/-- `ToolResult` (service.go lines 29-36).  The `Err` field carries a Go
error object that the heartbeat result handling never reads, so it is
omitted here. -/
structure ToolResult where
  forLLM : String
  forUser : String
  silent : Bool
  isError : Bool
  async : Bool
deriving DecidableEq

/-- `isHeartbeatOK` (service.go lines 368-370). -/
def isHeartbeatOK (response : String) : Bool :=
  response == heartbeatOK

/-- Observable outcome of one tool-result heartbeat cycle
(`executeHeartbeatWithTools`, service.go lines 215-253).  `send p`
means `sendResponse` was invoked with payload `p`; all other
constructors mean nothing was handed to `sendResponse`. -/
inductive HeartbeatOutcome where
  | noResult
  | errorLogged (msg : String)
  | asyncLogged (msg : String)
  | silentOK
  | send (payload : String)
  | noSend
deriving DecidableEq

/-- `executeHeartbeatWithTools` (service.go lines 215-253), with the
handler call abstracted into the `result` argument. -/
def executeHeartbeatWithTools (result : Option ToolResult) : HeartbeatOutcome :=
  match result with
  | none => .noResult
  | some r =>
    if r.isError then .errorLogged r.forLLM
    else if r.async then .asyncLogged r.forLLM
    else if r.silent then .silentOK
    else if r.forUser != "" then .send r.forUser
    else if r.forLLM != "" then .send r.forLLM
    else .noSend

/-- Observable outcome of the legacy string-handler branch of
`executeHeartbeat` (service.go lines 190-205). -/
inductive LegacyOutcome where
  | errorLogged
  | silentOK
  | send (payload : String)
deriving DecidableEq

/-- The legacy string-handler branch of `executeHeartbeat`
(service.go lines 190-205): `response` and `err` are the handler's
return values (`err = true` models a non-nil Go error). -/
def executeHeartbeatLegacy (response : String) (err : Bool) : LegacyOutcome :=
  if err then .errorLogged
  else if isHeartbeatOK response then .silentOK
  else .send response

/-- Result of Go `fmt.Sscanf` applied to an input with the format
string `service.go` line 351 uses to split the recorded channel.  The
Go `fmt` package implements only the scan verbs listed in its
documentation (v t b c d o O q x X U e E f F g G s); a C-style scanset
is not among them.  After the percent sign the opening bracket starts
an explicit argument index, whose body must be a decimal number; the
body in this format string is not, so the scan reports an error before
consuming any input, for every input string, and never assigns both
operands.  The call site requires `err == nil && n == 2`, hence the
parse never succeeds. -/
def sscanfPlatformUser (_ : String) : Option (String × String) := none

/-- Observable outcome of `sendResponse` (service.go lines 332-365). -/
inductive SendResponseOutcome where
  | noSender
  | noLastChannel
  | invalidFormat (lastChannel : String)
  | sent (platform userID content : String)
  | sendFailed (platform : String)
deriving DecidableEq

/-- `sendResponse` (service.go lines 332-365).  `hasSender` models a
non-nil channel sender, `lastChannel` is `stateManager.GetLastChannel()`,
and `sendOK` is whether `SendToChannel` would succeed if reached. -/
def sendResponse (hasSender : Bool) (lastChannel : String) (response : String)
    (sendOK : Bool) : SendResponseOutcome :=
  if !hasSender then .noSender
  else if lastChannel == "" then .noLastChannel
  else
    match sscanfPlatformUser lastChannel with
    | none => .invalidFormat lastChannel
    | some (p, u) => if sendOK then .sent p u response else .sendFailed p

/-- First section of the heartbeat prompt (service.go lines 279-281). -/
def promptPre : String := "# Heartbeat Check\n\nCurrent time: "

/-- Middle section of the heartbeat prompt between the timestamp and
the checklist content (service.go lines 281-287). -/
def promptMid : String :=
  "\n\nYou are a proactive AI assistant. This is a scheduled heartbeat check.\nReview the following tasks and execute any necessary actions using available skills.\nIf there is nothing that requires attention, respond ONLY with: HEARTBEAT_OK\n\n"

/-- The formatted heartbeat prompt (service.go lines 278-288). -/
def buildPromptText (content now : String) : String :=
  promptPre ++ now ++ promptMid ++ content ++ "\n"

/-- The default HEARTBEAT.md template written by
`createDefaultHeartbeatTemplate` (service.go lines 304-322). -/
def defaultHeartbeatContent : String :=
  "# Heartbeat Check List\n\nThis file contains tasks for the heartbeat service to check periodically.\n\n## Examples\n\n- Check for unread messages\n- Review upcoming calendar events\n- Check device status (e.g., MaixCam)\n\n## Instructions\n\nIf there's nothing that needs attention, respond with: HEARTBEAT_OK\nThis ensures the heartbeat runs silently when everything is fine.\n\n---\n\nAdd your heartbeat tasks below this line:\n"

/-- Result of `buildPrompt` (service.go lines 256-291): the produced
prompt, whether the default template was seeded, and the HEARTBEAT.md
content after the call.  The file system is modelled as
`Option String` (`none` = the file does not exist). -/
structure BuildPromptResult where
  prompt : String
  seededTemplate : Bool
  fs : Option String
deriving DecidableEq

/-- `buildPrompt` (service.go lines 256-291): a missing file seeds the
default template and yields the empty prompt; an empty file yields the
empty prompt; otherwise the prompt embeds the timestamp and the file
content. -/
def buildPrompt (fs : Option String) (now : String) : BuildPromptResult :=
  match fs with
  | none => ⟨"", true, some defaultHeartbeatContent⟩
  | some content =>
    if content.length = 0 then ⟨"", false, some content⟩
    else ⟨buildPromptText content now, false, some content⟩

/-- Observable outcome of one tick of `executeHeartbeat` up to the
handler invocation decision (service.go lines 168-190): either the
cycle is skipped (empty prompt) or the core is invoked with the built
prompt.  `fsAfter` is the HEARTBEAT.md content after the tick. -/
inductive CycleAction where
  | skipped (fsAfter : Option String)
  | invoked (prompt : String) (fsAfter : Option String)
deriving DecidableEq

/-- One enabled heartbeat tick (service.go lines 168-190): builds the
prompt and returns without invoking any handler when it is empty. -/
def heartbeatCycle (fs : Option String) (now : String) : CycleAction :=
  let r := buildPrompt fs now
  if r.prompt = "" then .skipped r.fs else .invoked r.prompt r.fs

theorem string_append_assoc (a b c : String) : a ++ b ++ c = a ++ (b ++ c) := by
  apply String.ext
  simp [String.data_append, List.append_assoc]

theorem buildPromptText_ne_empty (content now : String) :
    buildPromptText content now ≠ "" := by
  intro h
  have hd := congrArg String.data h
  simp [buildPromptText, promptPre, String.data_append] at hd

/-- C10: `NewHeartbeatService` interval clamping: zero selects the
30-minute default, nonzero values below five (including negatives) are
clamped to exactly five, any other value is kept, and the effective
interval is always at least five minutes. -/
theorem interval_clamp (n : Int) :
    (n = 0 → effectiveIntervalMinutes n = 30) ∧
    (n ≠ 0 → n < 5 → effectiveIntervalMinutes n = 5) ∧
    (5 ≤ n → effectiveIntervalMinutes n = n) ∧
    5 ≤ effectiveIntervalMinutes n := by
  unfold effectiveIntervalMinutes minIntervalMinutes defaultIntervalMinutes
  refine ⟨?_, ?_, ?_, ?_⟩ <;> simp only [] <;> split <;> split <;> omega

/-- C10 witness: concrete instantiations of each clamping case. -/
theorem interval_clamp_witness :
    effectiveIntervalMinutes 0 = 30 ∧
    effectiveIntervalMinutes (-3) = 5 ∧
    effectiveIntervalMinutes 7 = 7 ∧
    5 ≤ effectiveIntervalMinutes 7 := by
  exact ⟨(interval_clamp 0).1 rfl, (interval_clamp (-3)).2.1 (by decide) (by decide),
    (interval_clamp 7).2.2.1 (by decide), (interval_clamp 7).2.2.2⟩

/-- C4 counterexample: a tool result flagged both silent and error is
handled by the error branch (`executeHeartbeatWithTools` checks
`IsError` before `Silent`, service.go lines 224-243), so a
silent-flagged result is not always logged as a no-op: here the cycle
is treated as an error, not as canonical silence. -/
theorem silent_error_result_counterexample :
    executeHeartbeatWithTools (some ⟨"boom", "", true, true, false⟩) =
      .errorLogged "boom" := by
  rfl

/-- C4 (amended): in the legacy string path a successful result equal
to the sentinel is logged as a silent no-op with nothing delivered; in
the tool-result path a result flagged silent and not flagged error or
async is likewise a silent no-op with nothing delivered. -/
theorem silence_sentinel_suppresses_delivery (response : String) (r : ToolResult) :
    (response = heartbeatOK → executeHeartbeatLegacy response false = .silentOK) ∧
    (r.silent = true → r.isError = false → r.async = false →
      executeHeartbeatWithTools (some r) = .silentOK) := by
  constructor
  · intro h
    simp [executeHeartbeatLegacy, isHeartbeatOK, h]
  · intro hs he ha
    simp [executeHeartbeatWithTools, hs, he, ha]

/-- C4 witness: the sentinel response and a purely-silent tool result
both produce the silent no-op outcome. -/
theorem silence_sentinel_suppresses_delivery_witness :
    executeHeartbeatLegacy "HEARTBEAT_OK" false = .silentOK ∧
    executeHeartbeatWithTools (some ⟨"", "", true, false, false⟩) = .silentOK := by
  exact ⟨(silence_sentinel_suppresses_delivery "HEARTBEAT_OK" ⟨"", "", true, false, false⟩).1 rfl,
    (silence_sentinel_suppresses_delivery "HEARTBEAT_OK" ⟨"", "", true, false, false⟩).2 rfl rfl rfl⟩

/-- C3: `sendResponse` can never deliver the heartbeat payload.  The
format string passed to `fmt.Sscanf` at service.go line 351 is not
valid Go scan syntax (see `sscanfPlatformUser`), so the parse fails for
every recorded channel value and the function always stops at the
no-sender, no-channel, or invalid-format branch; in particular it stops
at the invalid-format branch on the exact format the code's own comment
prescribes (`"telegram:123456"`). -/
theorem heartbeat_delivery_unreachable :
    (∀ hasSender lastChannel response sendOK,
      sendResponse hasSender lastChannel response sendOK = .noSender ∨
      sendResponse hasSender lastChannel response sendOK = .noLastChannel ∨
      sendResponse hasSender lastChannel response sendOK = .invalidFormat lastChannel) ∧
    sendResponse true "telegram:123456" "hello" true =
      .invalidFormat "telegram:123456" := by
  constructor
  · intro hasSender lastChannel response sendOK
    unfold sendResponse sscanfPlatformUser
    split
    · exact Or.inl rfl
    · split
      · exact Or.inr (Or.inl rfl)
      · exact Or.inr (Or.inr rfl)
  · rfl

/-- C5: a missing HEARTBEAT.md seeds the default template and the core
is not invoked that cycle; an existing empty file also skips the core;
a non-empty file fires a prompt that embeds the file content and the
current timestamp. -/
theorem heartbeat_checklist_cycle (now content : String) :
    heartbeatCycle none now = .skipped (some defaultHeartbeatContent) ∧
    heartbeatCycle (some "") now = .skipped (some "") ∧
    (content ≠ "" →
      heartbeatCycle (some content) now =
        .invoked (buildPromptText content now) (some content) ∧
      (∃ pre post, buildPromptText content now = pre ++ content ++ post) ∧
      (∃ pre post, buildPromptText content now = pre ++ now ++ post)) := by
  refine ⟨rfl, rfl, fun hc => ⟨?_, ?_, ?_⟩⟩
  · have hlen : content.length ≠ 0 := by
      intro h
      apply hc
      have hn : content.data.length = 0 := h
      exact String.ext (List.length_eq_zero.mp hn)
    simp [heartbeatCycle, buildPrompt, hlen, buildPromptText_ne_empty]
  · exact ⟨promptPre ++ now ++ promptMid, "\n", by
      simp [buildPromptText, string_append_assoc]⟩
  · exact ⟨promptPre, promptMid ++ content ++ "\n", by
      simp [buildPromptText, string_append_assoc]⟩

/-- C5 witness: the three checklist cases at a concrete timestamp and
content. -/
theorem heartbeat_checklist_cycle_witness :
    heartbeatCycle none "2026-01-02 03:04:05" =
      .skipped (some defaultHeartbeatContent) ∧
    heartbeatCycle (some "") "2026-01-02 03:04:05" = .skipped (some "") ∧
    ("- water the plants" ≠ "" ∧
      heartbeatCycle (some "- water the plants") "2026-01-02 03:04:05" =
        .invoked (buildPromptText "- water the plants" "2026-01-02 03:04:05")
          (some "- water the plants") ∧
      (∃ pre post, buildPromptText "- water the plants" "2026-01-02 03:04:05" =
        pre ++ "- water the plants" ++ post) ∧
      (∃ pre post, buildPromptText "- water the plants" "2026-01-02 03:04:05" =
        pre ++ "2026-01-02 03:04:05" ++ post)) := by
  refine ⟨(heartbeat_checklist_cycle "2026-01-02 03:04:05" "- water the plants").1,
    (heartbeat_checklist_cycle "2026-01-02 03:04:05" "- water the plants").2.1,
    by decide, (heartbeat_checklist_cycle "2026-01-02 03:04:05" "- water the plants").2.2 (by decide)⟩

/-! ## LINE channel adapter (pkg/channels/line.go)

Message text is modelled as `List Char`, matching the Go code's rune
slices. -/

/-- `strings.Contains` on rune lists: `needle` occurs as a contiguous
run inside `hay`. -/
def listContainsSub (hay needle : List Char) : Bool :=
  (List.range (hay.length + 1)).any
    (fun i => (hay.drop i).take needle.length == needle)

/-- `strings.TrimSpace` on rune lists. -/
def trimSpace (s : List Char) : List Char :=
  ((s.dropWhile Char.isWhitespace).reverse.dropWhile Char.isWhitespace).reverse

/-- Recursion core of `removeAllMatches`, structurally recursive on a
fuel argument that always dominates the list length. -/
def removeAllMatchesAux (a : Char) (pat : List Char) : Nat → List Char → List Char
  | 0, l => l
  | _ + 1, [] => []
  | fuel + 1, c :: rest =>
    if c = a ∧ rest.take pat.length = pat then
      removeAllMatchesAux a pat fuel (rest.drop pat.length)
    else
      c :: removeAllMatchesAux a pat fuel rest

/-- `strings.ReplaceAll hay (a :: pat) ""`: remove every
(left-to-right, non-overlapping) occurrence of the nonempty pattern
`a :: pat`.  Each recursion step of the core consumes at least one
list element, so `l.length` fuel never runs out. -/
def removeAllMatches (a : Char) (pat : List Char) (l : List Char) : List Char :=
  removeAllMatchesAux a pat l.length l

/-- A webhook mentionee (line.go lines 293-312): either an @All
mention or a user mention with its user id and the rune index/length
of the mention text. -/
inductive Mentionee where
  | all
  | user (userId : String) (index length : Int)
deriving DecidableEq

/-- A text message content (line.go): its id, rune text, quote token,
and optional mention block. -/
structure TextMessage where
  id : String
  text : List Char
  quoteToken : String
  mention : Option (List Mentionee)
deriving DecidableEq

/-- Whether one mentionee triggers the mention check inside
`isBotMentioned` (line.go lines 293-313). -/
def mentioneeTriggers (botUserID botDisplayName : String) (text : List Char) :
    Mentionee → Bool
  | .all => true
  | .user uid idx len =>
    (botUserID != "" && uid == botUserID) ||
    (botDisplayName != "" && decide (0 ≤ idx) && decide (0 < len) &&
      (if idx + len ≤ (text.length : Int) then
        listContainsSub ((text.drop idx.toNat).take len.toNat) botDisplayName.data
      else false))

/-- `isBotMentioned` (line.go lines 291-322): any mentionee triggers,
or the text contains the at-sign followed by the display name. -/
def isBotMentioned (botUserID botDisplayName : String) (msg : TextMessage) : Bool :=
  (match msg.mention with
   | some ms => ms.any (mentioneeTriggers botUserID botDisplayName msg.text)
   | none => false) ||
  (botDisplayName != "" && listContainsSub msg.text ('@' :: botDisplayName.data))

/-- One reverse-iteration step of `stripBotMention` (line.go lines
328-365): remove the rune span of a mentionee that matches the bot. -/
def stripStep (botUserID botDisplayName : String)
    (st : List Char × Bool) (m : Mentionee) : List Char × Bool :=
  match m with
  | .all => st
  | .user uid idx len =>
    let runes := st.1
    let shouldStrip :=
      if botUserID != "" && uid == botUserID then true
      else if botDisplayName != "" && decide (0 ≤ idx) && decide (0 < len) then
        if idx + len ≤ (runes.length : Int) then
          listContainsSub ((runes.drop idx.toNat).take len.toNat) botDisplayName.data
        else false
      else false
    if shouldStrip then
      if 0 ≤ idx ∧ idx + len ≤ (runes.length : Int) then
        (runes.take idx.toNat ++ runes.drop (idx + len).toNat, true)
      else st
    else st

/-- `stripBotMention` (line.go lines 325-377): remove matching mention
spans (iterating mentionees from last to first); if none was removed,
fall back to deleting every occurrence of the at-sign plus display
name; trim surrounding whitespace. -/
def stripBotMention (botUserID botDisplayName : String) (text : List Char)
    (mention : Option (List Mentionee)) : List Char :=
  match mention with
  | some ms =>
    let r := ms.reverse.foldl (stripStep botUserID botDisplayName) (text, false)
    if r.2 then trimSpace r.1
    else if botDisplayName != "" then
      trimSpace (removeAllMatches '@' botDisplayName.data text)
    else trimSpace text
  | none =>
    if botDisplayName != "" then
      trimSpace (removeAllMatches '@' botDisplayName.data text)
    else trimSpace text

/-- A webhook event source (line.go lines 380-391). -/
inductive LineSource where
  | group (userId groupId : String)
  | room (userId roomId : String)
  | user (userId : String)
  | unknown
deriving DecidableEq

/-- `resolveSource` (line.go lines 380-391): sender id, chat id, and
source type. -/
def resolveSource : LineSource → String × String × String
  | .group uid gid => (uid, gid, "group")
  | .room uid rid => (uid, rid, "room")
  | .user uid => (uid, uid, "user")
  | .unknown => ("", "", "unknown")

/-- A webhook message content (line.go lines 219-261).  For media
kinds, `downloadedPath` is what `downloadContent` returns (the empty
string models a failed download). -/
inductive LineMessageContent where
  | text (msg : TextMessage)
  | image (id downloadedPath : String)
  | audio (id downloadedPath : String)
  | video (id downloadedPath : String)
  | file (id : String)
  | sticker (id : String)
  | other (typeName : String)
deriving DecidableEq

/-- The content string assembled by the `switch` in `processEvent`
(line.go lines 219-261), as runes. -/
def inboundContent (botUserID botDisplayName : String) (isGroup : Bool) :
    LineMessageContent → List Char
  | .text m =>
    if isGroup then stripBotMention botUserID botDisplayName m.text m.mention
    else m.text
  | .image _ p => if p != "" then "[image]".data else []
  | .audio _ p => if p != "" then "[audio]".data else []
  | .video _ p => if p != "" then "[video]".data else []
  | .file _ => "[file]".data
  | .sticker _ => "[sticker]".data
  | .other t => ("[" ++ t ++ "]").data

/-- Outcome of `processEvent` for a message event (line.go lines
172-285): whether `HandleMessage` published the message to the bus,
and with which content. -/
structure ProcessEventResult where
  published : Bool
  chatID : String
  content : List Char
deriving DecidableEq

/-- `processEvent` for a message event (line.go lines 172-285): group
and room chats require a text message mentioning the bot; the content
is assembled per message kind; blank content is dropped; otherwise the
message is handed to `HandleMessage` (the bus). -/
def processEvent (botUserID botDisplayName : String) (source : LineSource)
    (message : LineMessageContent) : ProcessEventResult :=
  let r := resolveSource source
  let chatID := r.2.1
  let sourceType := r.2.2
  let isGroup := sourceType == "group" || sourceType == "room"
  let mentionOK :=
    match message with
    | .text m => isBotMentioned botUserID botDisplayName m
    | _ => false
  if isGroup && !mentionOK then ⟨false, chatID, []⟩
  else
    let content := inboundContent botUserID botDisplayName isGroup message
    if trimSpace content = [] then ⟨false, chatID, []⟩
    else ⟨true, chatID, content⟩

/-- Outcome of `webhook.ParseRequest` (line.go line 150), abstracted:
the parsed events, an invalid-signature error, or any other parse
error. -/
inductive ParseOutcome where
  | ok (events : List (LineSource × LineMessageContent))
  | invalidSignature
  | malformed
deriving DecidableEq

/-- HTTP response of `webhookHandler` (line.go lines 144-170): the
status code written and the events handed to `processEvent`
goroutines (every inbound payload reaches the bus only through these). -/
structure WebhookResponse where
  status : Nat
  processedEvents : List (LineSource × LineMessageContent)
deriving DecidableEq

/-- `webhookHandler` (line.go lines 144-170). -/
def webhookHandler (method : String) (parsed : ParseOutcome) : WebhookResponse :=
  if method != "POST" then ⟨405, []⟩
  else
    match parsed with
    | .invalidSignature => ⟨403, []⟩
    | .malformed => ⟨400, []⟩
    | .ok events => ⟨200, events⟩

/-- A cached reply token with its storage time in milliseconds
(line.go lines 25-28). -/
structure ReplyTokenEntry where
  token : String
  timestamp : Nat
deriving DecidableEq

/-- Reply-token validity window: 25 seconds (line.go line 22), in
milliseconds. -/
def lineReplyTokenMaxAgeMillis : Nat := 25000

/-- The adapter state read and written by `Send` (line.go lines
33-45): the running flag and the per-chat reply/quote token stores. -/
structure LineSendState where
  running : Bool
  replyTokens : String → Option ReplyTokenEntry
  quoteTokens : String → Option String

/-- How `Send` delivered (or failed to deliver) a message. -/
inductive SendResult where
  | notRunning
  | viaReply (token text quote : String)
  | viaPush (chatID text quote : String)
deriving DecidableEq

/-- Full outcome of one `Send` call: the adapter state afterwards, the
delivery route taken, and the returned error. -/
structure SendOutcome where
  state : LineSendState
  result : SendResult
  err : Option String

/-- `Send` (line.go lines 395-436).  `now` is the current time in
milliseconds; `replyErr` and `pushErr` are the errors the Reply API
and Push API would return if called (`none` = success).  The quote and
reply token entries for the chat are removed (`LoadAndDelete`) as soon
as they are read, before any network call. -/
def lineSend (st : LineSendState) (now : Nat) (replyErr pushErr : Option String)
    (chatID content : String) : SendOutcome :=
  if !st.running then ⟨st, .notRunning, some "line channel not running"⟩
  else
    let quote := (st.quoteTokens chatID).getD ""
    let st1 : LineSendState :=
      { st with quoteTokens := fun k => if k = chatID then none else st.quoteTokens k }
    match st1.replyTokens chatID with
    | some entry =>
      let st2 : LineSendState :=
        { st1 with replyTokens := fun k => if k = chatID then none else st1.replyTokens k }
      if now - entry.timestamp < lineReplyTokenMaxAgeMillis then
        match replyErr with
        | none => ⟨st2, .viaReply entry.token content quote, none⟩
        | some _ => ⟨st2, .viaPush chatID content quote, pushErr⟩
      else ⟨st2, .viaPush chatID content quote, pushErr⟩
    | none => ⟨st1, .viaPush chatID content quote, pushErr⟩

/-- C6: whenever `Send` runs on a started adapter with a stored reply
handle for the target chat, the handle is gone from the store
afterwards, for every combination of reply/push success and failure:
a handle is consumed at most once. -/
theorem reply_handle_consumed_once (st : LineSendState) (now : Nat)
    (replyErr pushErr : Option String) (chatID content : String)
    (entry : ReplyTokenEntry) (hrun : st.running = true)
    (hstored : st.replyTokens chatID = some entry) :
    (lineSend st now replyErr pushErr chatID content).state.replyTokens chatID = none := by
  unfold lineSend
  simp only [hrun, Bool.not_true, Bool.false_eq_true, if_false, hstored]
  split
  · split <;> simp
  · simp

/-- C6 witness: a concrete stored handle is absent from the store
after a `Send` whose reply call fails. -/
theorem reply_handle_consumed_once_witness :
    (LineSendState.mk true (fun k => if k = "abc" then some ⟨"tok", 1000⟩ else none)
      (fun _ => none)).running = true ∧
    (LineSendState.mk true (fun k => if k = "abc" then some ⟨"tok", 1000⟩ else none)
      (fun _ => none)).replyTokens "abc" = some ⟨"tok", 1000⟩ ∧
    (lineSend
      (LineSendState.mk true (fun k => if k = "abc" then some ⟨"tok", 1000⟩ else none)
        (fun _ => none))
      2000 (some "reply boom") none "abc" "hi").state.replyTokens "abc" = none := by
  exact ⟨rfl, by simp, reply_handle_consumed_once _ 2000 (some "reply boom") none
    "abc" "hi" ⟨"tok", 1000⟩ rfl (by simp)⟩

/-- C7: when the stored reply handle for the target chat is at least
as old as the 25-second validity window, `Send` skips the Reply API,
sends through the Push API, and returns exactly the Push API's error:
the expired handle by itself produces no error. -/
theorem expired_handle_falls_back_to_push (st : LineSendState) (now : Nat)
    (replyErr pushErr : Option String) (chatID content : String)
    (entry : ReplyTokenEntry) (hrun : st.running = true)
    (hstored : st.replyTokens chatID = some entry)
    (hexpired : lineReplyTokenMaxAgeMillis ≤ now - entry.timestamp) :
    (lineSend st now replyErr pushErr chatID content).result =
      .viaPush chatID content ((st.quoteTokens chatID).getD "") ∧
    (lineSend st now replyErr pushErr chatID content).err = pushErr := by
  unfold lineSend
  simp only [hrun, Bool.not_true, Bool.false_eq_true, if_false, hstored]
  have hlt : ¬(now - entry.timestamp < lineReplyTokenMaxAgeMillis) := by omega
  simp [hlt]

/-- C7 witness: a handle stored 26 seconds ago is skipped; the push
succeeds and `Send` returns no error. -/
theorem expired_handle_falls_back_to_push_witness :
    (LineSendState.mk true (fun k => if k = "abc" then some ⟨"tok", 1000⟩ else none)
      (fun _ => none)).running = true ∧
    (LineSendState.mk true (fun k => if k = "abc" then some ⟨"tok", 1000⟩ else none)
      (fun _ => none)).replyTokens "abc" = some ⟨"tok", 1000⟩ ∧
    lineReplyTokenMaxAgeMillis ≤ 27000 - 1000 ∧
    (lineSend
      (LineSendState.mk true (fun k => if k = "abc" then some ⟨"tok", 1000⟩ else none)
        (fun _ => none))
      27000 none none "abc" "hi").result = .viaPush "abc" "hi" "" ∧
    (lineSend
      (LineSendState.mk true (fun k => if k = "abc" then some ⟨"tok", 1000⟩ else none)
        (fun _ => none))
      27000 none none "abc" "hi").err = none := by
  refine ⟨rfl, by simp, by decide, ?_⟩
  exact expired_handle_falls_back_to_push _ 27000 none none "abc" "hi"
    ⟨"tok", 1000⟩ rfl (by simp) (by decide)

/-- C8 counterexample: a one-to-one (user-source) text message whose
text is a single space is not published — `processEvent` drops any
message whose assembled content is blank (line.go lines 263-265), so
one-to-one publishing is not unconditional. -/
theorem one_to_one_blank_message_counterexample :
    (processEvent "B" "Bot" (.user "U1") (.text ⟨"id1", [' '], "", none⟩)).published
      = false := by
  decide

/-- C8 (amended): group and room messages are published only if they
are text messages in which the bot is mentioned; one-to-one (user
source) messages pass no attention filter and are published exactly
when their assembled content is non-blank. -/
theorem attention_filter (botUserID botDisplayName : String)
    (source : LineSource) (message : LineMessageContent) :
    (((resolveSource source).2.2 = "group" ∨ (resolveSource source).2.2 = "room") →
      (processEvent botUserID botDisplayName source message).published = true →
      ∃ m, message = .text m ∧ isBotMentioned botUserID botDisplayName m = true) ∧
    (∀ uid, source = .user uid →
      ((processEvent botUserID botDisplayName source message).published = true ↔
        trimSpace (inboundContent botUserID botDisplayName false message) ≠ [])) := by
  cases source with
  | group uid gid =>
    refine ⟨fun _ hpub => ?_, fun u hu => by cases hu⟩
    cases message with
    | text m =>
      by_cases hm : isBotMentioned botUserID botDisplayName m
      · exact ⟨m, rfl, hm⟩
      · exfalso
        simp [processEvent, resolveSource, hm] at hpub
    | image i p => exfalso; simp [processEvent, resolveSource] at hpub
    | audio i p => exfalso; simp [processEvent, resolveSource] at hpub
    | video i p => exfalso; simp [processEvent, resolveSource] at hpub
    | file i => exfalso; simp [processEvent, resolveSource] at hpub
    | sticker i => exfalso; simp [processEvent, resolveSource] at hpub
    | other t => exfalso; simp [processEvent, resolveSource] at hpub
  | room uid rid =>
    refine ⟨fun _ hpub => ?_, fun u hu => by cases hu⟩
    cases message with
    | text m =>
      by_cases hm : isBotMentioned botUserID botDisplayName m
      · exact ⟨m, rfl, hm⟩
      · exfalso
        simp [processEvent, resolveSource, hm] at hpub
    | image i p => exfalso; simp [processEvent, resolveSource] at hpub
    | audio i p => exfalso; simp [processEvent, resolveSource] at hpub
    | video i p => exfalso; simp [processEvent, resolveSource] at hpub
    | file i => exfalso; simp [processEvent, resolveSource] at hpub
    | sticker i => exfalso; simp [processEvent, resolveSource] at hpub
    | other t => exfalso; simp [processEvent, resolveSource] at hpub
  | user uid =>
    refine ⟨fun hsrc => ?_, fun u hu => ?_⟩
    · rcases hsrc with h | h <;> simp [resolveSource] at h
    · simp only [processEvent, resolveSource]
      by_cases hblank :
          trimSpace (inboundContent botUserID botDisplayName false message) = [] <;>
        simp [hblank]
  | unknown =>
    refine ⟨fun hsrc => ?_, fun u hu => by cases hu⟩
    rcases hsrc with h | h <;> simp [resolveSource] at h

/-- C8 witness: a group text message mentioning the bot by display
name is published and the filter conclusion holds; a one-to-one text
message is published exactly when its content is non-blank. -/
theorem attention_filter_witness :
    ((resolveSource (.group "U" "G")).2.2 = "group" ∧
      (processEvent "B" "Bot" (.group "U" "G")
        (.text ⟨"id", "@Bot hi".data, "", none⟩)).published = true ∧
      ∃ m, (LineMessageContent.text ⟨"id", "@Bot hi".data, "", none⟩) = .text m ∧
        isBotMentioned "B" "Bot" m = true) ∧
    ((processEvent "B" "Bot" (.user "U1") (.text ⟨"id", "hi".data, "", none⟩)).published
        = true ↔
      trimSpace (inboundContent "B" "Bot" false (.text ⟨"id", "hi".data, "", none⟩)) ≠ []) := by
  refine ⟨⟨rfl, by decide, ?_⟩, ?_⟩
  · exact (attention_filter "B" "Bot" (.group "U" "G")
      (.text ⟨"id", "@Bot hi".data, "", none⟩)).1 (Or.inl rfl) (by decide)
  · exact (attention_filter "B" "Bot" (.user "U1")
      (.text ⟨"id", "hi".data, "", none⟩)).2 "U1" rfl

/-- C9: a webhook request whose signature fails validation is answered
with 403 Forbidden and no event of its payload is handed to
`processEvent`, so the payload never reaches the message bus —
regardless of HTTP method, nothing is processed. -/
theorem invalid_signature_rejected :
    webhookHandler "POST" .invalidSignature = ⟨403, []⟩ ∧
    ∀ method, (webhookHandler method ParseOutcome.invalidSignature).processedEvents = [] := by
  refine ⟨rfl, fun method => ?_⟩
  unfold webhookHandler
  split <;> rfl

/-! ## Durable routing-state store (pkg/state)

The Go implementation of `state.Manager` is not in the tree (only its
tests are), so the store is modelled from the specification's write
protocol, section 4.4. -/

/-- Modelled from the spec: the routing-state record (`RoutingState`,
spec section 3): last channel, last chat id, and a timestamp (the wire
format carries it as an ISO-8601 string).  The Go `state.Manager`
implementation is absent from the tree. -/
structure RoutingState where
  lastChannel : String
  lastChatID : String
  timestamp : String
deriving DecidableEq

/-- The zero-valued routing-state record: empty fields and the zero
timestamp. -/
def zeroRoutingState : RoutingState := ⟨"", "", ""⟩

/-- Modelled from the spec: serialization of a routing-state record to
the single JSON document, abstracted to its ordered field values
(`last_channel`, `last_chat_id`, `timestamp`; spec section 6). -/
def encodeRoutingState (r : RoutingState) : List String :=
  [r.lastChannel, r.lastChatID, r.timestamp]

/-- Modelled from the spec: parse of the persisted document back into
a record; an unparsable document yields `none`. -/
def decodeRoutingState : List String → Option RoutingState
  | [ch, chat, ts] => some ⟨ch, chat, ts⟩
  | _ => none

/-- Modelled from the spec: the state directory seen by the store —
the canonical file (`state.json`) and the temporary file
(`state.json.tmp`), each either absent or holding a serialized
document.  `state.Manager` implementation absent from the tree. -/
structure StateDisk where
  canonical : Option (List String)
  temp : Option (List String)
deriving DecidableEq

/-- Modelled from the spec (section 4.4 write protocol, first half):
serialize the record to the temporary file in the same directory; the
canonical file is untouched. -/
def writeTempFile (d : StateDisk) (r : RoutingState) : StateDisk :=
  { d with temp := some (encodeRoutingState r) }

/-- Modelled from the spec (section 4.4 write protocol, second half):
atomically rename the temporary file over the canonical file. -/
def renameTempOverCanonical (d : StateDisk) : StateDisk :=
  match d.temp with
  | some doc => ⟨some doc, none⟩
  | none => d

/-- Modelled from the spec: a complete store write — temp file, then
atomic rename. -/
def saveState (d : StateDisk) (r : RoutingState) : StateDisk :=
  renameTempOverCanonical (writeTempFile d r)

/-- Modelled from the spec: a store read.  Only the canonical file is
consulted (a leftover temporary file is never read back); a missing or
unparsable canonical file yields the zero-valued record, not an
error. -/
def loadState (d : StateDisk) : RoutingState :=
  match d.canonical with
  | none => zeroRoutingState
  | some doc => (decodeRoutingState doc).getD zeroRoutingState

/-- C2: a store write followed by a read returns equal field values; a
write interrupted after the temporary file is created but before the
rename leaves the previously persisted record readable and unchanged
(the temporary file is never read back); and a read with no canonical
file yields the zero-valued record rather than an error. -/
theorem state_store_durability (d : StateDisk) (r : RoutingState) :
    loadState (saveState d r) = r ∧
    loadState (writeTempFile d r) = loadState d ∧
    (∀ t, loadState ⟨d.canonical, t⟩ = loadState d) ∧
    (d.canonical = none → loadState d = zeroRoutingState) := by
  refine ⟨rfl, rfl, fun t => rfl, fun h => ?_⟩
  simp [loadState, h]

/-- C2 witness: the three store behaviours on a concrete record and a
concrete empty directory. -/
theorem state_store_durability_witness :
    loadState (saveState ⟨none, none⟩ ⟨"line", "U1", "2026-01-02T03:04:05Z"⟩) =
      ⟨"line", "U1", "2026-01-02T03:04:05Z"⟩ ∧
    loadState (writeTempFile ⟨none, none⟩ ⟨"line", "U1", "2026-01-02T03:04:05Z"⟩) =
      loadState ⟨none, none⟩ ∧
    (∀ t, loadState ⟨(StateDisk.mk none none).canonical, t⟩ = loadState ⟨none, none⟩) ∧
    loadState ⟨none, none⟩ = zeroRoutingState := by
  obtain ⟨h1, h2, h3, h4⟩ :=
    state_store_durability ⟨none, none⟩ ⟨"line", "U1", "2026-01-02T03:04:05Z"⟩
  exact ⟨h1, h2, h3, h4 rfl⟩

/-! ## Turn serializer and per-producer ordering (spec sections 4.1, 5)

The Go message bus / turn-serializer implementation is not in the
tree; the transition system below is modelled from the specification:
publishes append to a per-chat queue, the core is started on the head
of a chat's queue only while no invocation for that chat is in flight,
and finishing an invocation releases the slot. -/

/-- Modelled from the spec: an inbound event tagged with its producer
(channel adapter, scheduler, or heartbeat) and payload. -/
structure BusMsg where
  producer : String
  payload : String
deriving DecidableEq

/-- Pointwise update of a per-chat table. -/
def updateFn {α : Type} (f : String → α) (c : String) (v : α) : String → α :=
  fun k => if k = c then v else f k

/-- Modelled from the spec: the serializer's state, per chat id — the
queue of pending events, the number of in-flight processing-core
invocations, the sequence of events already handed to the core, and
the full sequence of events ever published (history, for stating the
ordering guarantee). -/
structure SerializerState where
  queued : String → List BusMsg
  inFlight : String → Nat
  handed : String → List BusMsg
  published : String → List BusMsg

/-- The serializer's initial state: nothing queued, nothing running. -/
def initSerializer : SerializerState :=
  ⟨fun _ => [], fun _ => 0, fun _ => [], fun _ => []⟩

/-- Modelled from the spec: `Publish` appends the event to the owning
chat's queue (and to the history). -/
def pubStep (s : SerializerState) (c : String) (m : BusMsg) : SerializerState :=
  { s with
    queued := updateFn s.queued c (s.queued c ++ [m]),
    published := updateFn s.published c (s.published c ++ [m]) }

/-- Modelled from the spec: dequeue the head of chat `c`'s queue and
hand it to the processing core, incrementing the in-flight count. -/
def startStep (s : SerializerState) (c : String) (m : BusMsg) (rest : List BusMsg) :
    SerializerState :=
  { s with
    queued := updateFn s.queued c rest,
    inFlight := updateFn s.inFlight c (s.inFlight c + 1),
    handed := updateFn s.handed c (s.handed c ++ [m]) }

/-- Modelled from the spec: the core's invocation for chat `c`
returns, releasing the per-chat slot. -/
def finishStep (s : SerializerState) (c : String) : SerializerState :=
  { s with inFlight := updateFn s.inFlight c (s.inFlight c - 1) }

/-- Modelled from the spec: the states the serializer can reach under
any interleaving of concurrent producers.  A core invocation for a
chat starts only when that chat's slot is free (`hfree`) and takes the
queue head (`hq`); publishes and finishes are unguarded. -/
inductive SerializerReach : SerializerState → Prop where
  | init : SerializerReach initSerializer
  | publish (s : SerializerState) (c : String) (m : BusMsg)
      (h : SerializerReach s) : SerializerReach (pubStep s c m)
  | start (s : SerializerState) (c : String) (m : BusMsg) (rest : List BusMsg)
      (h : SerializerReach s) (hfree : s.inFlight c = 0)
      (hq : s.queued c = m :: rest) : SerializerReach (startStep s c m rest)
  | finish (s : SerializerState) (c : String) (h : SerializerReach s)
      (hbusy : 0 < s.inFlight c) : SerializerReach (finishStep s c)

theorem serializer_invariant (s : SerializerState) (h : SerializerReach s) :
    (∀ c, s.inFlight c ≤ 1) ∧
    (∀ c, s.published c = s.handed c ++ s.queued c) := by
  induction h with
  | init => exact ⟨fun c => by simp [initSerializer], fun c => by simp [initSerializer]⟩
  | publish s c m h ih =>
    refine ⟨fun k => ih.1 k, fun k => ?_⟩
    by_cases hk : k = c
    · subst hk
      simp [pubStep, updateFn, ih.2 k, List.append_assoc]
    · simp [pubStep, updateFn, hk, ih.2 k]
  | start s c m rest h hfree hq ih =>
    constructor
    · intro k
      by_cases hk : k = c
      · subst hk
        simp [startStep, updateFn, hfree]
      · simp [startStep, updateFn, hk]
        exact ih.1 k
    · intro k
      by_cases hk : k = c
      · subst hk
        have := ih.2 k
        rw [hq] at this
        simp [startStep, updateFn, this]
      · simp [startStep, updateFn, hk, ih.2 k]
  | finish s c h hbusy ih =>
    refine ⟨fun k => ?_, fun k => ih.2 k⟩
    by_cases hk : k = c
    · subst hk
      have := ih.1 k
      simp only [finishStep, updateFn, if_pos rfl, eq_self_iff_true, if_true]
      omega
    · simp [finishStep, updateFn, hk]
      exact ih.1 k

/-- C1: in every reachable serializer state, at most one
processing-core invocation is in flight for each chat id, and the
events of any one producer handed to the core for a chat form an
initial segment of that producer's submission sequence for the chat —
they are handed over in submission order, none skipped. -/
theorem turn_serializer_ordering (s : SerializerState) (c p : String)
    (h : SerializerReach s) :
    s.inFlight c ≤ 1 ∧
    (s.handed c).filter (fun m => m.producer == p) <+:
      (s.published c).filter (fun m => m.producer == p) := by
  obtain ⟨h1, h2⟩ := serializer_invariant s h
  refine ⟨h1 c, ?_⟩
  have hp : s.handed c <+: s.published c := ⟨s.queued c, (h2 c).symm⟩
  exact hp.filter _

/-- C1 witness: after two publishes from producer `line` on one chat
and one core start, the reachable state satisfies both guarantees. -/
theorem turn_serializer_ordering_witness :
    SerializerReach
      (startStep (pubStep (pubStep initSerializer "chat" ⟨"line", "m1"⟩)
        "chat" ⟨"line", "m2"⟩) "chat" ⟨"line", "m1"⟩ [⟨"line", "m2"⟩]) ∧
    ((startStep (pubStep (pubStep initSerializer "chat" ⟨"line", "m1"⟩)
        "chat" ⟨"line", "m2"⟩) "chat" ⟨"line", "m1"⟩ [⟨"line", "m2"⟩]).inFlight "chat" ≤ 1 ∧
      ((startStep (pubStep (pubStep initSerializer "chat" ⟨"line", "m1"⟩)
        "chat" ⟨"line", "m2"⟩) "chat" ⟨"line", "m1"⟩ [⟨"line", "m2"⟩]).handed "chat").filter
          (fun m => m.producer == "line") <+:
      ((startStep (pubStep (pubStep initSerializer "chat" ⟨"line", "m1"⟩)
        "chat" ⟨"line", "m2"⟩) "chat" ⟨"line", "m1"⟩ [⟨"line", "m2"⟩]).published "chat").filter
          (fun m => m.producer == "line")) := by
  have hreach : SerializerReach
      (startStep (pubStep (pubStep initSerializer "chat" ⟨"line", "m1"⟩)
        "chat" ⟨"line", "m2"⟩) "chat" ⟨"line", "m1"⟩ [⟨"line", "m2"⟩]) := by
    refine .start _ _ _ _ (.publish _ _ _ (.publish _ _ _ .init)) ?_ ?_
    · rfl
    · simp [pubStep, initSerializer, updateFn]
  exact ⟨hreach, turn_serializer_ordering _ "chat" "line" hreach⟩

end Picoclaw
